import Mathlib

/-
Verification development for the FantasyFootballCodexFeatures repository.

Part 1 embeds the marketing site's data layer: the mock objects of
src/feature-home-page/src/data/mocks/home.ts and the fetcher object of the
data-fetching module (src/unnamed/part_002).  Promises are modelled by plain
records carrying the simulated delay alongside the resolved value, since the
only effect of the asynchronous code is that delay.
-/

/-- Player record shape of the data-fetching module (type Player). -/
structure Player where
  id : Nat
  name : String
  position : String
  team : String
  change : ℚ
  trend : List Nat
deriving DecidableEq

/-- Injury record shape of the data-fetching module (type Injury). -/
structure Injury where
  id : Nat
  name : String
  position : String
  team : String
  status : String
  injury : String
  practiceStatus : String
deriving DecidableEq

/-- News record shape of the data-fetching module (type NewsItem). -/
structure NewsItem where
  id : Nat
  title : String
  source : String
  timestamp : String
  category : String
deriving DecidableEq

/-- Betting-value record shape of the data-fetching module (type BettingValue). -/
structure BettingValue where
  id : Nat
  name : String
  position : String
  team : String
  valueScore : Nat
  trend : String
  change : ℚ
deriving DecidableEq

/-- Testimonial record shape of the data-fetching module (type Testimonial). -/
structure Testimonial where
  id : Nat
  quote : String
  author : String
  role : String
  rating : Nat
deriving DecidableEq

/-- FAQ record shape of the data-fetching module (type FAQ). -/
structure FAQEntry where
  question : String
  answer : String
deriving DecidableEq

/-- Mock players of src/feature-home-page/src/data/mocks/home.ts. -/
def mockPlayers : List Player :=
  [ { id := 1, name := "Patrick Mahomes", position := "QB", team := "KC",
      change := 5.2, trend := [65, 70, 68, 72, 75, 80, 78, 82, 85, 90, 92, 95] },
    { id := 2, name := "Christian McCaffrey", position := "RB", team := "SF",
      change := -2.1, trend := [95, 94, 96, 93, 92, 90, 91, 89, 90, 88, 90, 92] },
    { id := 3, name := "Justin Jefferson", position := "WR", team := "MIN",
      change := 3.8, trend := [85, 88, 86, 89, 91, 90, 92, 94, 95, 96, 97, 98] } ]

/-- Mock injuries of src/feature-home-page/src/data/mocks/home.ts. -/
def mockInjuries : List Injury :=
  [ { id := 101, name := "Cooper Kupp", position := "WR", team := "LAR",
      status := "Questionable", injury := "Hamstring", practiceStatus := "Limited" },
    { id := 102, name := "Saquon Barkley", position := "RB", team := "NYG",
      status := "Out", injury := "Ankle", practiceStatus := "Did Not Practice" } ]

/-- Mock news of src/feature-home-page/src/data/mocks/home.ts. -/
def mockNews : List NewsItem :=
  [ { id := 201, title := "Top RB\x27s workload could increase in week 3",
      source := "NFL Insider", timestamp := "2h ago", category := "News" },
    { id := 202, title := "Injury Update: WR expected to play through minor injury",
      source := "Team Reporter", timestamp := "5h ago", category := "Injury" } ]

/-- Mock betting values of src/feature-home-page/src/data/mocks/home.ts. -/
def mockBettingValues : List BettingValue :=
  [ { id := 301, name := "Travis Kelce", position := "TE", team := "KC",
      valueScore := 87, trend := "up", change := 3.2 },
    { id := 302, name := "Ja\x27Marr Chase", position := "WR", team := "CIN",
      valueScore := 92, trend := "up", change := 5.7 } ]

/-- Mock testimonials of src/feature-home-page/src/data/mocks/home.ts. -/
def mockTestimonials : List Testimonial :=
  [ { id := 1,
      quote := "The injury alerts alone have saved my season. I knew about key players being out before my league mates even caught wind.",
      author := "Alex T.", role := "3x League Champion", rating := 5 },
    { id := 2,
      quote := "I\x27ve tried every fantasy app out there. Codex is the first one that actually gives me an edge with its AI-powered insights.",
      author := "Jamie R.", role := "Fantasy Enthusiast", rating := 5 },
    { id := 3,
      quote := "The betting value scores have been a game-changer for my DFS lineups. I\x27m consistently cashing in more tournaments.",
      author := "Morgan K.", role := "DFS Player", rating := 5 } ]

/-- Mock FAQs of src/feature-home-page/src/data/mocks/home.ts. -/
def mockFAQs : List FAQEntry :=
  [ { question := "Which data sources are used?",
      answer := "We aggregate data from multiple trusted sources including ESPN, NFL Data, MySportsFeeds, The Odds API, and curated social media feeds to provide comprehensive player insights." },
    { question := "How fresh is the data?",
      answer := "Our data is updated in real-time with the following cadence: player stats (live during games, every 5-15 minutes otherwise), injury reports (immediate updates), betting odds (every 1-5 minutes), and news/social (every 15-30 minutes)." },
    { question := "Can I customize AI weights?",
      answer := "Yes! You can adjust the importance of different factors in your AI summaries. For example, you might weight Injuries at 50%, Social Buzz at 30%, and Betting Insights at 20%, or create your own custom weighting scheme." },
    { question := "Do I need to link a league?",
      answer := "No, league linking is optional. You can manually select players to track if you prefer not to connect your fantasy platform." },
    { question := "Is there a mobile app?",
      answer := "Our web app is fully responsive and works great on mobile browsers. We\x27re currently developing native mobile apps for iOS and Android, coming soon!" },
    { question := "What\x27s included in the free tier?",
      answer := "The free tier includes basic player stats, injury reports, and limited access to betting insights. Premium features like advanced analytics, custom alerts, and full betting value scores require a subscription." } ]

/-- Resolution of the fetcher configuration: the caller passes an optional
useMock override which is merged over the default taken from the environment
(defaultConfig.useMock is NODE_ENV being development); this is the spread
expression of the source. -/
def resolveConfig (envDevelopment : Bool) (cfg : Option Bool) : Bool :=
  cfg.getD envDevelopment

/-- Result of one fetcher call: the resolved value, the error slot, and the
simulated network delay in milliseconds (zero when no sleep was awaited). -/
structure FetchResult (α : Type) where
  data : α
  error : Option String
  delayMs : Nat
deriving DecidableEq

/-- Fetcher getPlayers of the data-fetching module. -/
def getPlayers (envDevelopment : Bool) (cfg : Option Bool) : FetchResult (List Player) :=
  let useMock := resolveConfig envDevelopment cfg
  if useMock then
    { data := mockPlayers, error := none, delayMs := 500 }
  else
    { data := mockPlayers, error := none, delayMs := 0 }

/-- Fetcher getInjuries of the data-fetching module. -/
def getInjuries (envDevelopment : Bool) (cfg : Option Bool) : FetchResult (List Injury) :=
  let useMock := resolveConfig envDevelopment cfg
  if useMock then
    { data := mockInjuries, error := none, delayMs := 500 }
  else
    { data := mockInjuries, error := none, delayMs := 0 }

/-- Fetcher getNews of the data-fetching module. -/
def getNews (envDevelopment : Bool) (cfg : Option Bool) : FetchResult (List NewsItem) :=
  let useMock := resolveConfig envDevelopment cfg
  if useMock then
    { data := mockNews, error := none, delayMs := 500 }
  else
    { data := mockNews, error := none, delayMs := 0 }

/-- Fetcher getBettingValues of the data-fetching module. -/
def getBettingValues (envDevelopment : Bool) (cfg : Option Bool) :
    FetchResult (List BettingValue) :=
  let useMock := resolveConfig envDevelopment cfg
  if useMock then
    { data := mockBettingValues, error := none, delayMs := 500 }
  else
    { data := mockBettingValues, error := none, delayMs := 0 }

/-- Fetcher getTestimonials of the data-fetching module. -/
def getTestimonials (envDevelopment : Bool) (cfg : Option Bool) :
    FetchResult (List Testimonial) :=
  let useMock := resolveConfig envDevelopment cfg
  if useMock then
    { data := mockTestimonials, error := none, delayMs := 500 }
  else
    { data := mockTestimonials, error := none, delayMs := 0 }

/-- Fetcher getFAQs of the data-fetching module (note the shorter 300 ms delay). -/
def getFAQs (envDevelopment : Bool) (cfg : Option Bool) : FetchResult (List FAQEntry) :=
  let useMock := resolveConfig envDevelopment cfg
  if useMock then
    { data := mockFAQs, error := none, delayMs := 300 }
  else
    { data := mockFAQs, error := none, delayMs := 0 }

/-- Aggregate result of getHomePageData. -/
structure HomePageData where
  players : List Player
  injuries : List Injury
  news : List NewsItem
  bettingValues : List BettingValue
  testimonials : List Testimonial
  faqs : List FAQEntry
  error : Option String
  delayMs : Nat
deriving DecidableEq

/-- Fetcher getHomePageData of the data-fetching module. -/
def getHomePageData (envDevelopment : Bool) (cfg : Option Bool) : HomePageData :=
  let useMock := resolveConfig envDevelopment cfg
  if useMock then
    { players := mockPlayers, injuries := mockInjuries, news := mockNews,
      bettingValues := mockBettingValues, testimonials := mockTestimonials,
      faqs := mockFAQs, error := none, delayMs := 800 }
  else
    { players := mockPlayers, injuries := mockInjuries, news := mockNews,
      bettingValues := mockBettingValues, testimonials := mockTestimonials,
      faqs := mockFAQs, error := none, delayMs := 0 }

/-- Claim C1: for every configuration (any environment default and any useMock
override), each fetcher operation resolves with its pre-defined mock object as
data and with error equal to null, so the data is independent of the
configuration and no fetcher ever returns an error. -/
theorem fetchers_always_return_mocks_without_error :
    ∀ (e : Bool) (c : Option Bool),
      (getPlayers e c).data = mockPlayers ∧ (getPlayers e c).error = none ∧
      (getInjuries e c).data = mockInjuries ∧ (getInjuries e c).error = none ∧
      (getNews e c).data = mockNews ∧ (getNews e c).error = none ∧
      (getBettingValues e c).data = mockBettingValues ∧
      (getBettingValues e c).error = none ∧
      (getTestimonials e c).data = mockTestimonials ∧
      (getTestimonials e c).error = none ∧
      (getFAQs e c).data = mockFAQs ∧ (getFAQs e c).error = none ∧
      (getHomePageData e c).players = mockPlayers ∧
      (getHomePageData e c).injuries = mockInjuries ∧
      (getHomePageData e c).news = mockNews ∧
      (getHomePageData e c).bettingValues = mockBettingValues ∧
      (getHomePageData e c).testimonials = mockTestimonials ∧
      (getHomePageData e c).faqs = mockFAQs ∧
      (getHomePageData e c).error = none := by
  intro e c
  rcases c with _ | b
  · cases e <;>
      exact ⟨rfl, rfl, rfl, rfl, rfl, rfl, rfl, rfl, rfl, rfl, rfl, rfl, rfl,
        rfl, rfl, rfl, rfl, rfl, rfl⟩
  · cases b <;>
      exact ⟨rfl, rfl, rfl, rfl, rfl, rfl, rfl, rfl, rfl, rfl, rfl, rfl, rfl,
        rfl, rfl, rfl, rfl, rfl, rfl⟩

/-- Claim C10: under every configuration, the aggregate getHomePageData result
agrees field-by-field with the six individual fetchers run under the same
configuration, and its error field is null. -/
theorem getHomePageData_refines_individual_fetchers :
    ∀ (e : Bool) (c : Option Bool),
      (getHomePageData e c).players = (getPlayers e c).data ∧
      (getHomePageData e c).injuries = (getInjuries e c).data ∧
      (getHomePageData e c).news = (getNews e c).data ∧
      (getHomePageData e c).bettingValues = (getBettingValues e c).data ∧
      (getHomePageData e c).testimonials = (getTestimonials e c).data ∧
      (getHomePageData e c).faqs = (getFAQs e c).data ∧
      (getHomePageData e c).error = none := by
  intro e c
  rcases c with _ | b
  · cases e <;> exact ⟨rfl, rfl, rfl, rfl, rfl, rfl, rfl⟩
  · cases b <;> exact ⟨rfl, rfl, rfl, rfl, rfl, rfl, rfl⟩

/-
Part 2 embeds the composition of the marketing landing page
(src/feature-home-page/src/app/(marketing)/page.tsx) and the FAQ accordion
state of the FAQ component (src/unnamed/part_000).
-/

/-- Kinds of sections a marketing page composition can render.  The first nine
constructors are the components that exist in the repository; pricingTeaser is
the pricing-teaser section kind the specification enumerates, included so that
its presence in a composition can be stated. -/
inductive SectionKind where
  | siteHeader
  | hero
  | benefits
  | peekTiles
  | howItWorks
  | testimonials
  | faq
  | ctaBand
  | siteFooter
  | pricingTeaser
deriving DecidableEq

/-- Sections composed, in order, by the Home component of
src/feature-home-page/src/app/(marketing)/page.tsx (PeekTiles is wrapped in a
Suspense boundary inside an inline section; the wrapper does not change which
section kinds appear). -/
def homeSections : List SectionKind :=
  [ .siteHeader, .hero, .benefits, .peekTiles, .howItWorks, .testimonials,
    .faq, .ctaBand, .siteFooter ]

/-- Claim C6 counterexample: the landing page composition does not contain all
four of hero, testimonials, FAQ and pricing-teaser sections, because no
pricing-teaser section is rendered by the Home component. -/
theorem homeSections_missing_pricing_teaser :
    ¬ (SectionKind.hero ∈ homeSections ∧
       SectionKind.testimonials ∈ homeSections ∧
       SectionKind.faq ∈ homeSections ∧
       SectionKind.pricingTeaser ∈ homeSections) := by
  decide

/-- Claim C6 (amended): the landing page composition contains a hero section, a
testimonials section and an FAQ section, but it contains no pricing-teaser
section (the only pricing reference in the repository is a footer link to a
/pricing route). -/
theorem homeSections_contain_claimed_sections :
    SectionKind.hero ∈ homeSections ∧
    SectionKind.testimonials ∈ homeSections ∧
    SectionKind.faq ∈ homeSections ∧
    SectionKind.pricingTeaser ∉ homeSections := by
  decide

/-- Accordion toggle of the FAQ component: clicking index sets openIndex to
null when that index is already open and to the clicked index otherwise. -/
def toggleAccordion (openIndex : Option Nat) (index : Nat) : Option Nat :=
  if openIndex = some index then none else some index

/-- Claim C9 counterexample: starting from openIndex = some 1 (which is not
index 0), toggling index 0 twice yields null, not the original value some 1,
so the toggle is not self-inverse on states where openIndex differs from the
toggled index. -/
theorem toggleAccordion_not_self_inverse_from_other_index :
    ¬ (toggleAccordion (toggleAccordion (some 1) 0) 0 = some 1) := by
  decide

/-- Claim C9 (amended): toggling index i twice returns openIndex to its
original value exactly when the original openIndex was null or i itself; from a
state already open at a different index j the double toggle yields null.  After
any single toggle at most one item is open: the result is some i when openIndex
differed from some i before, and null when it equalled some i. -/
theorem toggleAccordion_laws :
    ∀ (s : Option Nat) (i : Nat),
      (s = none → toggleAccordion (toggleAccordion s i) i = s) ∧
      (s = some i → toggleAccordion (toggleAccordion s i) i = s) ∧
      (∀ j, s = some j → j ≠ i → toggleAccordion (toggleAccordion s i) i = none) ∧
      (s ≠ some i → toggleAccordion s i = some i) ∧
      (s = some i → toggleAccordion s i = none) := by
  intro s i
  refine ⟨?_, ?_, ?_, ?_, ?_⟩
  · rintro rfl
    simp [toggleAccordion]
  · rintro rfl
    simp [toggleAccordion]
  · rintro j rfl hj
    simp [toggleAccordion, hj]
  · intro h
    simp [toggleAccordion, h]
  · rintro rfl
    simp [toggleAccordion]

/-- Claim C9 witness: the amended toggle laws evaluated at concrete states,
each hypothesis discharged at those states. -/
theorem toggleAccordion_laws_witness :
    toggleAccordion (toggleAccordion none 2 ) 2 = none ∧
    toggleAccordion (toggleAccordion (some 2) 2) 2 = some 2 ∧
    toggleAccordion (toggleAccordion (some 1) 0) 0 = none ∧
    toggleAccordion (some 1) 0 = some 0 ∧
    toggleAccordion (some 2) 2 = none :=
  ⟨(toggleAccordion_laws none 2).1 rfl,
   (toggleAccordion_laws (some 2) 2).2.1 rfl,
   (toggleAccordion_laws (some 1) 0).2.2.1 1 rfl (by decide),
   (toggleAccordion_laws (some 1) 0).2.2.2.1 (by decide),
   (toggleAccordion_laws (some 2) 2).2.2.2.2 rfl⟩

/-
Part 3 embeds the PeekTiles component of
src/feature-home-page/src/components/peek-tiles.tsx as a state machine.  The
component starts loading with no data; its mount effect (dependency array
empty, so it runs once per component instance) starts one 800 ms timer whose
callback stores the mock data and clears the loading flag; the effect cleanup
run at unmount clears the timer.
-/

/-- Risers/fallers block of the PeekTiles mock data. -/
structure RisersFallers where
  risers : Nat
  fallers : Nat
  trend : List Nat
deriving DecidableEq

/-- Injuries block of the PeekTiles mock data; lastUpdated is the wall-clock
time string computed when the module is evaluated, kept as a parameter. -/
structure InjuriesTile where
  questionable : Nat
  out : Nat
  lastUpdated : String
deriving DecidableEq

/-- Direction union type of the bettingValue block. -/
inductive Direction where
  | up
  | down
deriving DecidableEq

/-- Betting-value block of the PeekTiles mock data. -/
structure BettingTile where
  score : Nat
  direction : Direction
  change : Nat
deriving DecidableEq

/-- News block of the PeekTiles mock data. -/
structure NewsTile where
  headline : String
  source : String
  time : String
deriving DecidableEq

/-- Mock data object of the PeekTiles component, parameterised by the
formatted current time used for injuries.lastUpdated. -/
structure PeekMockData where
  risersFallers : RisersFallers
  injuries : InjuriesTile
  bettingValue : BettingTile
  news : NewsTile
deriving DecidableEq

/-- Mock data literal of peek-tiles.tsx. -/
def peekMockData (now : String) : PeekMockData :=
  { risersFallers := { risers := 12, fallers := 8,
                       trend := [2, 5, 3, 8, 6, 10, 8, 12, 8, 6, 7, 5] },
    injuries := { questionable := 5, out := 2, lastUpdated := now },
    bettingValue := { score := 78, direction := .up, change := 5 },
    news := { headline := "Top RB\x27s workload could increase in week 3",
              source := "NFL Insider", time := "2h ago" } }

/-- State of one PeekTiles component instance: the two useState hooks, whether
the mount effect has run, whether the instance has been torn down, whether the
timer it started is still pending, and a count of timers ever started. -/
structure PeekState where
  isLoading : Bool
  data : Option PeekMockData
  effectRan : Bool
  unmounted : Bool
  timerPending : Bool
  timersStarted : Nat
deriving DecidableEq

/-- Initial state of the component: loading, no data, effect not yet run. -/
def peekInit : PeekState :=
  { isLoading := true, data := none, effectRan := false, unmounted := false,
    timerPending := false, timersStarted := 0 }

/-- Events a PeekTiles instance can experience: the mount effect running, the
pending timer firing, and teardown running the effect cleanup. -/
inductive PeekEvent where
  | mount
  | timerFire
  | unmount
deriving DecidableEq

/-- Transition function of the PeekTiles state machine.  The mount effect runs
at most once per instance and never on a torn-down instance; the timer
callback only fires while its timeout is pending (clearTimeout removes it);
the cleanup clears the pending timeout. -/
def peekStep (now : String) (s : PeekState) : PeekEvent → PeekState
  | .mount =>
      if s.effectRan ∨ s.unmounted then s
      else { s with effectRan := true, timerPending := true,
                    timersStarted := s.timersStarted + 1 }
  | .timerFire =>
      if s.timerPending then
        { s with data := some (peekMockData now), isLoading := false,
                 timerPending := false }
      else s
  | .unmount => { s with unmounted := true, timerPending := false }

/-- Execution of a list of events from a state. -/
def peekRun (now : String) (s : PeekState) : List PeekEvent → PeekState
  | [] => s
  | e :: es => peekRun now (peekStep now s e) es

/-- Timer-count bookkeeping invariant: the number of timers started is one
exactly when the mount effect has run, and zero otherwise. -/
def peekTimerInv (s : PeekState) : Prop :=
  s.timersStarted = if s.effectRan then 1 else 0

lemma peekStep_preserves_timerInv (now : String) (s : PeekState) (e : PeekEvent)
    (h : peekTimerInv s) : peekTimerInv (peekStep now s e) := by
  cases e <;> simp only [peekStep, peekTimerInv] at h ⊢
  · split
    · exact h
    · next hcond =>
        push_neg at hcond
        simp [hcond.1] at h
        simp [h]
  · split <;> simp [h]
  · simp [h]

lemma peekRun_preserves_timerInv (now : String) (tr : List PeekEvent) :
    ∀ s : PeekState, peekTimerInv s → peekTimerInv (peekRun now s tr) := by
  induction tr with
  | nil => intro s h; exact h
  | cons e es ih =>
      intro s h
      exact ih _ (peekStep_preserves_timerInv now s e h)

/-- Dead-state lemma: once an instance is torn down with no timer pending,
every further event leaves the state unchanged. -/
lemma peekRun_frozen_after_unmount (now : String) (tr : List PeekEvent) :
    ∀ s : PeekState, s.unmounted = true → s.timerPending = false →
      peekRun now s tr = s := by
  induction tr with
  | nil => intro s _ _; rfl
  | cons e es ih =>
      intro s hu ht
      have hstep : peekStep now s e = s := by
        cases e <;> simp only [peekStep]
        · simp [hu]
        · simp [ht]
        · cases s
          simp_all
      rw [peekRun, hstep]
      exact ih s hu ht

/-- Claim C7: as a state machine over loading flag, data and timer, the
PeekTiles component sets at most one timer along any event trace from the
initial state; the only timer-fired transition stores the mock data and clears
the loading flag; once loading is false no event makes it true again; and
teardown cancels the pending timer, after which no event ever changes the
stored data. -/
theorem peekTiles_single_timer_deferral (now : String) :
    (∀ tr : List PeekEvent, (peekRun now peekInit tr).timersStarted ≤ 1) ∧
    (∀ s : PeekState, s.timerPending = true →
      peekStep now s .timerFire =
        { s with data := some (peekMockData now), isLoading := false,
                 timerPending := false }) ∧
    (∀ (s : PeekState) (e : PeekEvent), s.isLoading = false →
      (peekStep now s e).isLoading = false) ∧
    (∀ s : PeekState, (peekStep now s .unmount).timerPending = false) ∧
    (∀ (s : PeekState) (tr : List PeekEvent),
      (peekRun now (peekStep now s .unmount) tr).data =
        (peekStep now s .unmount).data) := by
  refine ⟨?_, ?_, ?_, ?_, ?_⟩
  · intro tr
    have h := peekRun_preserves_timerInv now tr peekInit (by rfl)
    rw [peekTimerInv] at h
    rw [h]
    split <;> omega
  · intro s h
    simp [peekStep, h]
  · intro s e h
    cases e <;> simp only [peekStep]
    · split <;> simp [h]
    · split <;> simp [h]
    · simp [h]
  · intro s
    simp [peekStep]
  · intro s tr
    rw [peekRun_frozen_after_unmount now tr (peekStep now s .unmount) rfl rfl]

/-- Claim C7 witness: the lifecycle theorem applied at a concrete time string,
concrete states and concrete traces, each hypothesis discharged there. -/
theorem peekTiles_single_timer_deferral_witness :
    (peekRun "10:00 AM" peekInit [PeekEvent.mount, PeekEvent.timerFire]).timersStarted ≤ 1 ∧
    peekStep "10:00 AM"
        { isLoading := true, data := none, effectRan := true, unmounted := false,
          timerPending := true, timersStarted := 1 } .timerFire =
      { isLoading := false, data := some (peekMockData "10:00 AM"),
        effectRan := true, unmounted := false, timerPending := false,
        timersStarted := 1 } ∧
    (peekStep "10:00 AM"
        { isLoading := false, data := some (peekMockData "10:00 AM"),
          effectRan := true, unmounted := false, timerPending := false,
          timersStarted := 1 } .mount).isLoading = false ∧
    (peekStep "10:00 AM" peekInit .unmount).timerPending = false ∧
    (peekRun "10:00 AM" (peekStep "10:00 AM"
        { isLoading := true, data := none, effectRan := true, unmounted := false,
          timerPending := true, timersStarted := 1 } .unmount)
        [PeekEvent.timerFire, PeekEvent.mount]).data =
      (peekStep "10:00 AM"
        { isLoading := true, data := none, effectRan := true, unmounted := false,
          timerPending := true, timersStarted := 1 } .unmount).data :=
  ⟨(peekTiles_single_timer_deferral "10:00 AM").1 [PeekEvent.mount, PeekEvent.timerFire],
   (peekTiles_single_timer_deferral "10:00 AM").2.1 _ rfl,
   (peekTiles_single_timer_deferral "10:00 AM").2.2.1 _ PeekEvent.mount rfl,
   (peekTiles_single_timer_deferral "10:00 AM").2.2.2.1 peekInit,
   (peekTiles_single_timer_deferral "10:00 AM").2.2.2.2 _ [PeekEvent.timerFire, PeekEvent.mount]⟩

/-
Part 4 embeds the Sparkline helper of peek-tiles.tsx.  JavaScript numbers are
modelled by rationals; Math.max/Math.min over a spread non-empty array fold
the comparison over the elements, and the expression max - min || 1 replaces a
zero range by one.
-/

/-- Minimum of a list as Math.min over its spread elements (the value on the
empty list is irrelevant to the component, which only renders the bars of a
given array). -/
def spMin : List ℚ → ℚ
  | [] => 0
  | h :: t => t.foldl min h

/-- Maximum of a list as Math.max over its spread elements. -/
def spMax : List ℚ → ℚ
  | [] => 0
  | h :: t => t.foldl max h

/-- Range divisor of the Sparkline: max - min, with zero replaced by one. -/
def sparkRange (l : List ℚ) : ℚ :=
  let r := spMax l - spMin l
  if r = 0 then 1 else r

/-- Bar height of the Sparkline for one value of the array. -/
def sparkHeight (l : List ℚ) (v : ℚ) : ℚ :=
  ((v - spMin l) / sparkRange l) * 100

lemma foldl_min_le_init (t : List ℚ) : ∀ a : ℚ, t.foldl min a ≤ a := by
  induction t with
  | nil => intro a; exact le_refl a
  | cons h t ih =>
      intro a
      calc (h :: t).foldl min a = t.foldl min (min a h) := rfl
        _ ≤ min a h := ih (min a h)
        _ ≤ a := min_le_left a h

lemma foldl_min_le_mem (t : List ℚ) :
    ∀ (a v : ℚ), v ∈ t → t.foldl min a ≤ v := by
  induction t with
  | nil => intro a v hv; cases hv
  | cons h t ih =>
      intro a v hv
      rcases List.mem_cons.mp hv with rfl | hv
      · calc (v :: t).foldl min a = t.foldl min (min a v) := rfl
          _ ≤ min a v := foldl_min_le_init t (min a v)
          _ ≤ v := min_le_right a v
      · exact ih (min a h) v hv

lemma init_le_foldl_max (t : List ℚ) : ∀ a : ℚ, a ≤ t.foldl max a := by
  induction t with
  | nil => intro a; exact le_refl a
  | cons h t ih =>
      intro a
      calc a ≤ max a h := le_max_left a h
        _ ≤ t.foldl max (max a h) := ih (max a h)
        _ = (h :: t).foldl max a := rfl

lemma mem_le_foldl_max (t : List ℚ) :
    ∀ (a v : ℚ), v ∈ t → v ≤ t.foldl max a := by
  induction t with
  | nil => intro a v hv; cases hv
  | cons h t ih =>
      intro a v hv
      rcases List.mem_cons.mp hv with rfl | hv
      · calc v ≤ max a v := le_max_right a v
          _ ≤ t.foldl max (max a v) := init_le_foldl_max t (max a v)
          _ = (v :: t).foldl max a := rfl
      · exact ih (max a h) v hv

lemma spMin_le_mem (l : List ℚ) (v : ℚ) (hv : v ∈ l) : spMin l ≤ v := by
  cases l with
  | nil => cases hv
  | cons h t =>
      rcases List.mem_cons.mp hv with rfl | hv
      · exact foldl_min_le_init t v
      · exact foldl_min_le_mem t h v hv

lemma mem_le_spMax (l : List ℚ) (v : ℚ) (hv : v ∈ l) : v ≤ spMax l := by
  cases l with
  | nil => cases hv
  | cons h t =>
      rcases List.mem_cons.mp hv with rfl | hv
      · exact init_le_foldl_max t v
      · exact mem_le_foldl_max t h v hv

/-- Claim C8: on every non-empty array and every value drawn from it, the
Sparkline computation is total: the divisor is never zero, and the computed
bar height lies in the closed interval from 0 to 100. -/
theorem sparkline_heights_bounded (l : List ℚ) (hl : l ≠ []) :
    ∀ v ∈ l, sparkRange l ≠ 0 ∧ 0 ≤ sparkHeight l v ∧ sparkHeight l v ≤ 100 := by
  intro v hv
  have hmin : spMin l ≤ v := spMin_le_mem l v hv
  have hmax : v ≤ spMax l := mem_le_spMax l v hv
  have hmm : spMin l ≤ spMax l := le_trans hmin hmax
  by_cases hr : spMax l - spMin l = 0
  · have hvmin : v = spMin l := le_antisymm (by linarith) hmin
    have hrange : sparkRange l = 1 := by simp [sparkRange, hr]
    refine ⟨by rw [hrange]; norm_num, ?_, ?_⟩
    · rw [sparkHeight, hrange, hvmin]
      norm_num
    · rw [sparkHeight, hrange, hvmin]
      norm_num
  · have hpos : 0 < spMax l - spMin l := lt_of_le_of_ne (by linarith) (Ne.symm hr)
    have hrange : sparkRange l = spMax l - spMin l := by simp [sparkRange, hr]
    refine ⟨by rw [hrange]; exact hr, ?_, ?_⟩
    · rw [sparkHeight, hrange]
      have hnum : 0 ≤ v - spMin l := by linarith
      have := div_nonneg hnum (le_of_lt hpos)
      linarith
    · rw [sparkHeight, hrange]
      have hdiv : (v - spMin l) / (spMax l - spMin l) ≤ 1 :=
        (div_le_one hpos).mpr (by linarith)
      linarith

/-- Claim C8 witness: the bound theorem applied to the concrete array
[2, 5, 3] at the value 5, the hypotheses discharged by evaluation. -/
theorem sparkline_heights_bounded_witness :
    sparkRange [(2 : ℚ), 5, 3] ≠ 0 ∧
    0 ≤ sparkHeight [(2 : ℚ), 5, 3] 5 ∧ sparkHeight [(2 : ℚ), 5, 3] 5 ≤ 100 :=
  sparkline_heights_bounded [(2 : ℚ), 5, 3] (by decide) 5 (by decide)

/-
Part 5 models the authentication microservice.  The FastAPI router code
(app/routers/auth.py and the service layer) is not part of the repository
snapshot; only its documentation is (src/feature-auth/INTEGRATION_GUIDE.md,
README.md, DEVELOPMENT_NOTES.md).  The definitions below are therefore
modelled from the spec and those documents.
-/

/-- HTTP methods used by the auth service routes. -/
inductive Method where
  | get
  | post
  | put
  | delete
deriving DecidableEq

/-- One REST endpoint of the auth service: method, path, and whether the route
is protected by bearer-token authentication. -/
structure Endpoint where
  method : Method
  path : String
  requiresBearer : Bool
deriving DecidableEq

/-- Modelled from the spec: the auth route handlers (app/routers/auth.py) are
absent from the snapshot; this endpoint table transcribes the Authentication
Flow section of src/feature-auth/INTEGRATION_GUIDE.md, with the three /auth/me
profile routes protected by the bearer-token dependency described under
Integration Patterns and the register/token/refresh routes open. -/
def authEndpoints : List Endpoint :=
  [ { method := .post, path := "/auth/register", requiresBearer := false },
    { method := .post, path := "/auth/token", requiresBearer := false },
    { method := .post, path := "/auth/refresh", requiresBearer := false },
    { method := .get, path := "/auth/me", requiresBearer := true },
    { method := .put, path := "/auth/me", requiresBearer := true },
    { method := .delete, path := "/auth/me", requiresBearer := true } ]

/-- Claim C2: the auth service exposes exactly the six documented REST
endpoints, and precisely the /auth/me endpoints require bearer-token
authentication. -/
theorem auth_service_exposes_six_endpoints :
    authEndpoints.map (fun e => (e.method, e.path)) =
      [ (Method.post, "/auth/register"), (Method.post, "/auth/token"),
        (Method.post, "/auth/refresh"), (Method.get, "/auth/me"),
        (Method.put, "/auth/me"), (Method.delete, "/auth/me") ] ∧
    ∀ e ∈ authEndpoints, (e.requiresBearer = true ↔ e.path = "/auth/me") := by
  constructor
  · rfl
  · decide

/-- Claim C2 witness: the endpoint theorem applied at the GET /auth/me route,
its membership hypothesis discharged by evaluation. -/
theorem auth_service_exposes_six_endpoints_witness :
    ({ method := .get, path := "/auth/me", requiresBearer := true } :
        Endpoint).requiresBearer = true ↔
      ({ method := .get, path := "/auth/me", requiresBearer := true } :
        Endpoint).path = "/auth/me" :=
  auth_service_exposes_six_endpoints.2
    { method := .get, path := "/auth/me", requiresBearer := true } (by decide)

/-- User row of the auth service, as far as registration and token issuance
observe it. -/
structure AuthUser where
  id : Nat
  email : String
  hashedPassword : String
deriving DecidableEq

/-- Body of a registration request. -/
structure RegisterRequest where
  email : String
  password : String
deriving DecidableEq

/-- Modelled from the spec: stand-in for the bcrypt password hash, whose
algorithm the service delegates to a library; the claims never inspect it. -/
def hashPassword (password : String) : String :=
  String.append "bcrypt$" password

/-- Outcome of a registration attempt: the HTTP status returned and the user
store after the operation. -/
structure RegisterOutcome where
  status : Nat
  store : List AuthUser
deriving DecidableEq

/-- Modelled from the spec: the register handler is absent from the snapshot;
per the spec (registering with a duplicate email returns 400; database
constraint violations are surfaced as exceptions and translated to API error
responses) and the Error Handling section of the integration guides, a request
whose email matches an existing user is rejected with 400 and the store is
left unchanged, otherwise the user is created with status 201. -/
def registerUser (store : List AuthUser) (req : RegisterRequest) (newId : Nat) :
    RegisterOutcome :=
  if store.any (fun u => u.email = req.email) then
    { status := 400, store := store }
  else
    { status := 201,
      store := store ++
        [{ id := newId, email := req.email,
           hashedPassword := hashPassword req.password }] }

/-- Claim C3: whenever the requested email already belongs to a user in the
store, registration fails with HTTP 400 and the user store is unchanged. -/
theorem register_duplicate_email_returns_400 (store : List AuthUser)
    (req : RegisterRequest) (newId : Nat)
    (hdup : ∃ u ∈ store, u.email = req.email) :
    (registerUser store req newId).status = 400 ∧
    (registerUser store req newId).store = store := by
  have hany : store.any (fun u => u.email = req.email) = true := by
    rw [List.any_eq_true]
    obtain ⟨u, hu, he⟩ := hdup
    exact ⟨u, hu, decide_eq_true he⟩
  rw [registerUser]
  simp [hany]

/-- Claim C3 witness: registering alice@example.com twice, the second attempt
evaluated through the theorem with its duplicate-email hypothesis discharged
at the concrete store. -/
theorem register_duplicate_email_returns_400_witness :
    (registerUser
        [{ id := 1, email := "alice@example.com",
           hashedPassword := hashPassword "pw1" }]
        { email := "alice@example.com", password := "pw2" } 2).status = 400 ∧
    (registerUser
        [{ id := 1, email := "alice@example.com",
           hashedPassword := hashPassword "pw1" }]
        { email := "alice@example.com", password := "pw2" } 2).store =
      [{ id := 1, email := "alice@example.com",
         hashedPassword := hashPassword "pw1" }] :=
  register_duplicate_email_returns_400
    [{ id := 1, email := "alice@example.com",
       hashedPassword := hashPassword "pw1" }]
    { email := "alice@example.com", password := "pw2" } 2
    ⟨{ id := 1, email := "alice@example.com",
       hashedPassword := hashPassword "pw1" }, by decide, rfl⟩

/-- Decoded refresh token: its subject (user id), expiry instant, and whether
the JWT signature and shape verified. -/
structure RefreshToken where
  subject : Nat
  expiresAt : Nat
  wellFormed : Bool
deriving DecidableEq

/-- Freshly issued access token: subject and validity window (the documented
ACCESS_TOKEN_EXPIRE_MINUTES is 30). -/
structure AccessToken where
  subject : Nat
  issuedAt : Nat
  expiresAt : Nat
deriving DecidableEq

/-- Response of the refresh endpoint: a new access token or a 401 rejection. -/
inductive RefreshResult where
  | ok (token : AccessToken)
  | unauthorized
deriving DecidableEq

/-- Modelled from the spec: the refresh handler is absent from the snapshot;
per the spec (a valid refresh token issues a new access token) and the error
table of INTEGRATION_GUIDE.md (401 on invalid or expired tokens), a malformed,
expired or unbound token is rejected with 401, and otherwise a new 30-minute
access token is issued for the token's subject. -/
def refreshAccessToken (users : List AuthUser) (now : Nat)
    (tok : RefreshToken) : RefreshResult :=
  if tok.wellFormed = false then .unauthorized
  else if tok.expiresAt ≤ now then .unauthorized
  else
    match users.find? (fun u => u.id = tok.subject) with
    | none => .unauthorized
    | some u => .ok { subject := u.id, issuedAt := now,
                      expiresAt := now + 30 * 60 }

/-- Claim C4: every refresh token that is well-formed, unexpired, and bound to
an existing user makes POST /auth/refresh succeed with a newly issued access
token for that user. -/
theorem refresh_valid_token_issues_access_token (users : List AuthUser)
    (now : Nat) (tok : RefreshToken)
    (hwf : tok.wellFormed = true) (hexp : now < tok.expiresAt)
    (huser : ∃ u ∈ users, u.id = tok.subject) :
    refreshAccessToken users now tok =
      .ok { subject := tok.subject, issuedAt := now,
            expiresAt := now + 30 * 60 } := by
  have hsome : (users.find? (fun u => u.id = tok.subject)).isSome := by
    rw [List.find?_isSome]
    obtain ⟨u, hu, hid⟩ := huser
    exact ⟨u, hu, decide_eq_true hid⟩
  obtain ⟨u, hu⟩ := Option.isSome_iff_exists.mp hsome
  have hid : u.id = tok.subject := by
    have := List.find?_some hu
    exact of_decide_eq_true this
  rw [refreshAccessToken]
  simp only [hwf, Bool.true_eq_false, if_false, not_lt.mpr, hu]
  rw [if_neg (by omega)]
  rw [hid]

/-- Claim C4 witness: the refresh theorem applied to a one-user store and a
concrete live token, all three validity hypotheses discharged there. -/
theorem refresh_valid_token_issues_access_token_witness :
    refreshAccessToken
        [{ id := 7, email := "bob@example.com",
           hashedPassword := hashPassword "pw" }] 100
        { subject := 7, expiresAt := 200, wellFormed := true } =
      .ok { subject := 7, issuedAt := 100, expiresAt := 100 + 30 * 60 } :=
  refresh_valid_token_issues_access_token
    [{ id := 7, email := "bob@example.com",
       hashedPassword := hashPassword "pw" }] 100
    { subject := 7, expiresAt := 200, wellFormed := true }
    rfl (by decide)
    ⟨{ id := 7, email := "bob@example.com",
       hashedPassword := hashPassword "pw" }, by decide, rfl⟩

/-
Part 6 models the relational schema of the database package.  The SQLAlchemy
model files (models/teams_players.py, models/roster.py) are absent from the
snapshot; only their documentation is (src/feature-database-setup and the
unnamed markdown parts).  The definitions below are therefore modelled from
the spec and that documentation: gsis_id is the Player primary key,
PlayerWeekRoster carries a unique constraint on (player_id, season, week) and
a foreign key player_id referencing Player.gsis_id, and constraint violations
reject the write leaving the database unchanged.
-/

/-- Player row of the database package: gsis_id primary key plus the scalar
attributes the documented queries touch. -/
structure DBPlayer where
  gsis_id : String
  display_name : String
  latest_team : String
deriving DecidableEq

/-- PlayerWeekRoster row: auto-increment id, player_id foreign key to
Player.gsis_id, and the week assignment fields. -/
structure WeekRoster where
  id : Nat
  player_id : String
  season : Nat
  week : Nat
  team : String
deriving DecidableEq

/-- Database state restricted to the two tables the claim is about. -/
structure DBState where
  players : List DBPlayer
  rosters : List WeekRoster
deriving DecidableEq

/-- Empty database. -/
def dbEmpty : DBState :=
  { players := [], rosters := [] }

/-- Uniqueness invariant of the claim: gsis_id is a key of the Player table
and (player_id, season, week) is a key of the PlayerWeekRoster table. -/
def dbInv (st : DBState) : Prop :=
  st.players.Pairwise (fun a b => a.gsis_id ≠ b.gsis_id) ∧
  st.rosters.Pairwise (fun a b =>
    ¬(a.player_id = b.player_id ∧ a.season = b.season ∧ a.week = b.week))

instance (st : DBState) : Decidable (dbInv st) := by
  unfold dbInv
  infer_instance

/-- Modelled from the spec: create_player of INTEGRATION_GUIDE.md with the
primary-key constraint enforced by the relational store; inserting a row whose
gsis_id already exists violates the constraint and leaves the state
unchanged. -/
def createPlayer (st : DBState) (p : DBPlayer) : DBState :=
  if st.players.any (fun q => q.gsis_id = p.gsis_id) then st
  else { st with players := st.players ++ [p] }

/-- Modelled from the spec: create_roster_entry of INTEGRATION_GUIDE.md with
the unique constraint on (player_id, season, week) and the foreign key to
Player.gsis_id enforced by the relational store. -/
def createRosterEntry (st : DBState) (r : WeekRoster) : DBState :=
  if st.rosters.any (fun q =>
      q.player_id = r.player_id ∧ q.season = r.season ∧ q.week = r.week) then st
  else if st.players.any (fun q => q.gsis_id = r.player_id) then
    { st with rosters := st.rosters ++ [r] }
  else st

/-- Non-key attributes an update_player call may set. -/
structure PlayerUpdate where
  display_name : Option String
  latest_team : Option String
deriving DecidableEq

/-- Application of an update payload to one row; the primary key is not among
the updatable attributes. -/
def applyPlayerUpdate (p : DBPlayer) (u : PlayerUpdate) : DBPlayer :=
  { p with display_name := u.display_name.getD p.display_name,
           latest_team := u.latest_team.getD p.latest_team }

/-- Modelled from the spec: update_player of INTEGRATION_GUIDE.md, selecting
the row by gsis_id and setting the given non-key attributes. -/
def updatePlayer (st : DBState) (g : String) (u : PlayerUpdate) : DBState :=
  { st with players :=
      st.players.map (fun p => if p.gsis_id = g then applyPlayerUpdate p u else p) }

/-- Write operations the documentation demonstrates against these tables. -/
inductive DBOp where
  | createPlayer (p : DBPlayer)
  | createRosterEntry (r : WeekRoster)
  | updatePlayer (g : String) (u : PlayerUpdate)
deriving DecidableEq

/-- One write applied to a state. -/
def applyOp (st : DBState) : DBOp → DBState
  | .createPlayer p => createPlayer st p
  | .createRosterEntry r => createRosterEntry st r
  | .updatePlayer g u => updatePlayer st g u

/-- A sequence of writes applied in order. -/
def runOps (st : DBState) : List DBOp → DBState
  | [] => st
  | op :: ops => runOps (applyOp st op) ops

lemma createPlayer_preserves_inv (st : DBState) (p : DBPlayer)
    (h : dbInv st) : dbInv (createPlayer st p) := by
  obtain ⟨hp, hr⟩ := h
  rw [createPlayer]
  split
  · exact ⟨hp, hr⟩
  · next hnone =>
      refine ⟨?_, hr⟩
      rw [List.pairwise_append]
      refine ⟨hp, List.pairwise_singleton _ _, ?_⟩
      intro a ha b hb
      rw [List.mem_singleton] at hb
      subst hb
      intro hcontra
      apply hnone
      rw [List.any_eq_true]
      exact ⟨a, ha, decide_eq_true hcontra⟩

lemma createRosterEntry_preserves_inv (st : DBState) (r : WeekRoster)
    (h : dbInv st) : dbInv (createRosterEntry st r) := by
  obtain ⟨hp, hr⟩ := h
  rw [createRosterEntry]
  split
  · exact ⟨hp, hr⟩
  · next hnone =>
      split
      · refine ⟨hp, ?_⟩
        rw [List.pairwise_append]
        refine ⟨hr, List.pairwise_singleton _ _, ?_⟩
        intro a ha b hb
        rw [List.mem_singleton] at hb
        subst hb
        intro hcontra
        apply hnone
        rw [List.any_eq_true]
        refine ⟨a, ha, ?_⟩
        exact decide_eq_true hcontra
      · exact ⟨hp, hr⟩

lemma updatePlayer_preserves_inv (st : DBState) (g : String) (u : PlayerUpdate)
    (h : dbInv st) : dbInv (updatePlayer st g u) := by
  obtain ⟨hp, hr⟩ := h
  refine ⟨?_, hr⟩
  rw [updatePlayer]
  refine List.Pairwise.map _ ?_ hp
  intro a b hab
  have ka : (if a.gsis_id = g then applyPlayerUpdate a u else a).gsis_id =
      a.gsis_id := by
    split <;> rfl
  have kb : (if b.gsis_id = g then applyPlayerUpdate b u else b).gsis_id =
      b.gsis_id := by
    split <;> rfl
  rw [ka, kb]
  exact hab

lemma applyOp_preserves_inv (st : DBState) (op : DBOp)
    (h : dbInv st) : dbInv (applyOp st op) := by
  cases op with
  | createPlayer p => exact createPlayer_preserves_inv st p h
  | createRosterEntry r => exact createRosterEntry_preserves_inv st r h
  | updatePlayer g u => exact updatePlayer_preserves_inv st g u h

lemma runOps_preserves_inv (ops : List DBOp) :
    ∀ st : DBState, dbInv st → dbInv (runOps st ops) := by
  induction ops with
  | nil => intro st h; exact h
  | cons op ops ih =>
      intro st h
      exact ih _ (applyOp_preserves_inv st op h)

/-- Claim C5: in every database state reachable from the empty database by the
documented create and update operations, gsis_id is a key of the Player table
and (player_id, season, week) is a key of the PlayerWeekRoster table, and each
single create or update operation preserves these uniqueness invariants. -/
theorem database_keys_unique :
    (∀ ops : List DBOp, dbInv (runOps dbEmpty ops)) ∧
    (∀ (st : DBState) (op : DBOp), dbInv st → dbInv (applyOp st op)) := by
  constructor
  · intro ops
    exact runOps_preserves_inv ops dbEmpty ⟨List.Pairwise.nil, List.Pairwise.nil⟩
  · exact applyOp_preserves_inv

/-- Claim C5 witness: the preservation half applied to a concrete one-player
state and a duplicate-key insert, its invariant hypothesis discharged by
evaluation. -/
theorem database_keys_unique_witness :
    dbInv (applyOp
      { players := [{ gsis_id := "00-0036355", display_name := "Josh Allen",
                      latest_team := "BUF" }],
        rosters := [] }
      (.createPlayer { gsis_id := "00-0036355", display_name := "Duplicate",
                       latest_team := "KC" })) :=
  database_keys_unique.2
    { players := [{ gsis_id := "00-0036355", display_name := "Josh Allen",
                    latest_team := "BUF" }],
      rosters := [] }
    (.createPlayer { gsis_id := "00-0036355", display_name := "Duplicate",
                     latest_team := "KC" })
    (by decide)
